import Mathlib

/-!
Shallow embedding of `src/app.py` (ic_userdashboard_poc): a Flask service
persisting per-user dashboard layouts in a MongoDB collection
`user_dashboards` with a unique compound index on (userId, dashboardId).

Modelling choices:
* JSON values are the inductive `JVal`; a parsed PUT request body is
  `Option (List (String × JVal))` — `none` stands for a body that is
  malformed JSON or parses to nothing (Python `request.get_json(silent=True)`
  returning a falsy value), `some kvs` for a parsed JSON object.
* A Mongo `datetime` is a `Nat` (abstract UTC instant); `isoformat` renders it.
* The collection is a `List Doc` in natural order; `find_one` returns the
  first match, `update_one` with `upsert=True` updates the first match in
  place or appends a fresh document, reporting whether it inserted
  (`result.upserted_id is not None`).
* Store connectivity failures are injected through an `Option String`
  parameter: `some cause` makes the store call raise an exception whose
  `str(e)` is `cause`; `none` lets it run. The unique index additionally
  makes `insert_one` raise a duplicate-key error on a key collision.
* An HTTP response is the pair of its JSON body (`JVal`) and status code;
  handlers return the post-state of the store together with the response.
-/

inductive JVal where
  | jnull : JVal
  | jbool : Bool → JVal
  | jnum : Int → JVal
  | jstr : String → JVal
  | jarr : List JVal → JVal
  | jobj : List (String × JVal) → JVal
deriving Repr

/-- A document of the `user_dashboards` collection.  `layout` and
`updatedAt` are optional because Mongo documents may lack them and the
code reads them with `doc.get(...)`; `userId` / `dashboardId` are always
present on any document matched by the handlers' filters. -/
structure Doc where
  userId : String
  dashboardId : String
  layout : Option (List JVal)
  updatedAt : Option Nat
deriving Repr

/-- The `user_dashboards` collection, in natural (insertion) order. -/
abbrev Store := List Doc

/-- The filter `{"userId": u, "dashboardId": d}` applied to a document. -/
def matchesKey (u d : String) (x : Doc) : Bool :=
  x.userId == u && x.dashboardId == d

/-- `dashboards_col.find_one({"userId": u, "dashboardId": d})`. -/
def find_one (s : Store) (u d : String) : Option Doc :=
  s.find? (matchesKey u d)

/-- `dashboards_col.insert_one(doc)` under the unique compound index on
(userId, dashboardId): raises a duplicate-key error when the key is
already present, or whatever failure the store injects. -/
def insert_one (failure : Option String) (s : Store) (doc : Doc) :
    Except String Store :=
  match failure with
  | some cause => .error cause
  | none =>
    if s.any (matchesKey doc.userId doc.dashboardId) then
      .error "E11000 duplicate key error collection: dashboard_db.user_dashboards"
    else
      .ok (s ++ [doc])

/-- The `$set` clause of the upsert: full replacement of `layout` and
`updatedAt`, all other fields untouched. -/
def setFields (layout : List JVal) (now : Nat) (x : Doc) : Doc :=
  { x with layout := some layout, updatedAt := some now }

/-- Update the first document matching (u, d) in place; `none` if no
document matches. -/
def updateFirst (u d : String) (layout : List JVal) (now : Nat) :
    Store → Option Store
  | [] => none
  | x :: xs =>
    if matchesKey u d x then some (setFields layout now x :: xs)
    else (updateFirst u d layout now xs).map (x :: ·)

/-- Pure core of `update_one(filter, {"$set": ...}, upsert=True)`: the new
store and whether a document was inserted (`upserted_id is not None`). -/
def upsertCore (s : Store) (u d : String) (layout : List JVal) (now : Nat) :
    Store × Bool :=
  match updateFirst u d layout now s with
  | some s' => (s', false)
  | none => (s ++ [⟨u, d, some layout, some now⟩], true)

/-- `dashboards_col.update_one({...}, {"$set": {...}}, upsert=True)` with
injected store failure. -/
def update_one_upsert (failure : Option String) (s : Store) (u d : String)
    (layout : List JVal) (now : Nat) : Except String (Store × Bool) :=
  match failure with
  | some cause => .error cause
  | none => .ok (upsertCore s u d layout now)

/-- `get_current_user_id()`: value of the `X-User-Id` header if truthy,
else the fallback `"demo-user"` (Python `if not user_id`). -/
def get_current_user_id (header : Option String) : String :=
  match header with
  | none => "demo-user"
  | some v => if v = "" then "demo-user" else v

/-- `datetime.isoformat()` on the abstract instant. -/
def isoformat (t : Nat) : String := toString t

/-- `serialize_dashboard(doc)`: `None` for a falsy argument, else the API
response shape. -/
def serialize_dashboard (doc : Option Doc) : Option JVal :=
  match doc with
  | none => none
  | some d =>
    some (.jobj
      [("userId", .jstr d.userId),
       ("dashboardId", .jstr d.dashboardId),
       ("layout", .jarr (d.layout.getD [])),
       ("updatedAt",
        match d.updatedAt with
        | some t => .jstr (isoformat t ++ "Z")
        | none => .jnull)])

/-- `jsonify` of a possibly-`None` value. -/
def optJ (o : Option JVal) : JVal := o.getD .jnull

/-- The JSON error envelope `{"error": msg}`. -/
def errBody (msg : String) : JVal := .jobj [("error", .jstr msg)]

/-- `GET /api/v1/dashboard/<dashboard_id>` (`get_dashboard` in app.py):
returns the post-state of the store, the response body and status code.
`now` is `datetime.utcnow()`; `failure` is injected into `insert_one`. -/
def get_dashboard (s : Store) (header : Option String) (dashboard_id : String)
    (now : Nat) (failure : Option String) : Store × JVal × Nat :=
  let user_id := get_current_user_id header
  if user_id = "" then (s, errBody "Unauthorized", 401)
  else
    match find_one s user_id dashboard_id with
    | some doc => (s, optJ (serialize_dashboard (some doc)), 200)
    | none =>
      let default_doc : Doc := ⟨user_id, dashboard_id, some [], some now⟩
      match insert_one failure s default_doc with
      | .error e =>
        (s, errBody ("Failed to create default dashboard: " ++ e), 500)
      | .ok s' => (s', optJ (serialize_dashboard (some default_doc)), 200)

/-- `PUT /api/v1/dashboard/<dashboard_id>` (`upsert_dashboard` in app.py).
`body` is the parsed request body (`none` when malformed or nothing);
`failure` is injected into `update_one`. -/
def upsert_dashboard (s : Store) (header : Option String)
    (dashboard_id : String) (body : Option (List (String × JVal)))
    (now : Nat) (failure : Option String) : Store × JVal × Nat :=
  let user_id := get_current_user_id header
  if user_id = "" then (s, errBody "Unauthorized", 401)
  else
    let data := body.getD []
    match data.lookup "layout" with
    | some (.jarr layout) =>
      match update_one_upsert failure s user_id dashboard_id layout now with
      | .error e => (s, errBody ("Failed to upsert dashboard: " ++ e), 500)
      | .ok (s', created) =>
        let status := if created then "created" else "updated"
        let doc := find_one s' user_id dashboard_id
        (s',
         .jobj [("status", .jstr status),
                ("dashboard", optJ (serialize_dashboard doc))],
         if created then 201 else 200)
    | _ => (s, errBody "Field 'layout' (array) is required", 400)

/-- `GET /health`. -/
def health : JVal × Nat := (.jobj [("status", .jstr "ok")], 200)

/-- Field access on a JSON object body (used to state properties of
responses). -/
def field (k : String) : JVal → Option JVal
  | .jobj kvs => kvs.lookup k
  | _ => none

/-! ## Store lemmas -/

theorem matchesKey_iff (u d : String) (x : Doc) :
    matchesKey u d x = true ↔ x.userId = u ∧ x.dashboardId = d := by
  simp [matchesKey]

theorem matchesKey_setFields (u d : String) (L : List JVal) (t : Nat) (x : Doc) :
    matchesKey u d (setFields L t x) = matchesKey u d x := rfl

theorem find_one_eq_none_iff (s : Store) (u d : String) :
    find_one s u d = none ↔ ∀ x ∈ s, ¬(x.userId = u ∧ x.dashboardId = d) := by
  simp [find_one, List.find?_eq_none, matchesKey]

theorem any_eq_false_of_find_one_none (s : Store) (u d : String)
    (h : find_one s u d = none) : s.any (matchesKey u d) = false := by
  rw [find_one_eq_none_iff] at h
  simp only [List.any_eq_false]
  intro x hx
  simp [matchesKey]
  exact fun h1 h2 => h x hx ⟨h1, h2⟩

theorem updateFirst_none_iff (u d : String) (L : List JVal) (t : Nat)
    (s : Store) : updateFirst u d L t s = none ↔ find_one s u d = none := by
  induction s with
  | nil => simp [updateFirst, find_one]
  | cons x xs ih =>
    by_cases hx : matchesKey u d x
    · simp [updateFirst, find_one, List.find?_cons, hx]
    · simp only [updateFirst, find_one, List.find?_cons] at *
      simp [hx, ih]

theorem find_one_updateFirst_self (u d : String) (L : List JVal) (t : Nat)
    (s s' : Store) (h : updateFirst u d L t s = some s') :
    find_one s' u d = some ⟨u, d, some L, some t⟩ := by
  induction s generalizing s' with
  | nil => simp [updateFirst] at h
  | cons x xs ih =>
    by_cases hx : matchesKey u d x
    · simp only [updateFirst, hx, if_pos, Option.some.injEq] at h
      subst h
      have hkey := (matchesKey_iff u d x).mp hx
      simp only [find_one, List.find?_cons, matchesKey_setFields, hx]
      cases x
      simp_all [setFields]
    · simp only [updateFirst, hx] at h
      rcases Option.map_eq_some'.mp h with ⟨ys, hys, rfl⟩
      simp only [find_one, List.find?_cons, hx]
      exact ih ys hys

theorem find_one_updateFirst_other (u d u' d' : String) (L : List JVal)
    (t : Nat) (s s' : Store) (hne : ¬(u' = u ∧ d' = d))
    (h : updateFirst u d L t s = some s') :
    find_one s' u' d' = find_one s u' d' := by
  induction s generalizing s' with
  | nil => simp [updateFirst] at h
  | cons x xs ih =>
    by_cases hx : matchesKey u d x
    · simp only [updateFirst, hx, if_pos, Option.some.injEq] at h
      subst h
      have hkey := (matchesKey_iff u d x).mp hx
      have hx' : matchesKey u' d' x = false := by
        by_cases h0 : matchesKey u' d' x
        · have hm := (matchesKey_iff u' d' x).mp h0
          exact absurd ⟨by rw [← hm.1, hkey.1], by rw [← hm.2, hkey.2]⟩ hne
        · simpa using h0
      simp [find_one, List.find?_cons, matchesKey_setFields, hx']
    · simp only [updateFirst, hx] at h
      rcases Option.map_eq_some'.mp h with ⟨ys, hys, rfl⟩
      simp only [find_one, List.find?_cons]
      by_cases hx' : matchesKey u' d' x
      · simp [hx']
      · simp only [hx', Bool.false_eq_true, if_neg, reduceCtorEq]
        exact ih ys hys

theorem find_one_append_self (s : Store) (u d : String) (D : Doc)
    (hnone : find_one s u d = none) (hD : matchesKey u d D = true) :
    find_one (s ++ [D]) u d = some D := by
  induction s with
  | nil => simp [find_one, List.find?_cons, hD]
  | cons x xs ih =>
    simp only [find_one, List.cons_append, List.find?_cons] at *
    by_cases hx : matchesKey u d x
    · simp [hx] at hnone
    · simp only [hx, Bool.false_eq_true, if_neg, reduceCtorEq] at *
      exact ih hnone

theorem find_one_append_other (s : Store) (u d : String) (D : Doc)
    (hD : matchesKey u d D = false) :
    find_one (s ++ [D]) u d = find_one s u d := by
  induction s with
  | nil => simp [find_one, List.find?_cons, hD]
  | cons x xs ih =>
    simp only [find_one, List.find?_cons, List.cons_append] at *
    by_cases hx : matchesKey u d x
    · simp [hx]
    · simp only [hx, Bool.false_eq_true, if_neg, reduceCtorEq]
      exact ih

theorem upsertCore_find_self (s : Store) (u d : String) (L : List JVal)
    (t : Nat) : find_one (upsertCore s u d L t).1 u d = some ⟨u, d, some L, some t⟩ := by
  unfold upsertCore
  rcases h : updateFirst u d L t s with _ | s'
  · have hnone : find_one s u d = none := (updateFirst_none_iff u d L t s).mp h
    simp only []
    exact find_one_append_self s u d _ hnone (by simp [matchesKey])
  · exact find_one_updateFirst_self u d L t s s' h

theorem upsertCore_find_other (s : Store) (u d u' d' : String) (L : List JVal)
    (t : Nat) (hne : ¬(u' = u ∧ d' = d)) :
    find_one (upsertCore s u d L t).1 u' d' = find_one s u' d' := by
  unfold upsertCore
  rcases h : updateFirst u d L t s with _ | s'
  · simp only []
    refine find_one_append_other s u' d' _ ?_
    by_cases h0 : matchesKey u' d' (⟨u, d, some L, some t⟩ : Doc)
    · have hm := (matchesKey_iff u' d' _).mp h0
      simp only [] at hm
      exact absurd ⟨hm.1.symm, hm.2.symm⟩ hne
    · simpa using h0
  · simpa using find_one_updateFirst_other u d u' d' L t s s' hne h

theorem upsertCore_created_iff (s : Store) (u d : String) (L : List JVal)
    (t : Nat) : (upsertCore s u d L t).2 = true ↔ find_one s u d = none := by
  unfold upsertCore
  rcases h : updateFirst u d L t s with _ | s'
  · simp [(updateFirst_none_iff u d L t s).mp h]
  · simp only []
    constructor
    · intro hf; cases hf
    · intro hf
      rw [← updateFirst_none_iff u d L t s] at hf
      rw [h] at hf; cases hf

/-! ## Identity resolver lemmas -/

theorem resolver_ne_empty (h : Option String) : get_current_user_id h ≠ "" := by
  cases h with
  | none => simp [get_current_user_id]
  | some v =>
    by_cases hv : v = ""
    · simp [get_current_user_id, hv]
    · simp [get_current_user_id, hv]

/-! ## Uniqueness invariant -/

/-- No two documents of the collection share the compound key
(userId, dashboardId): the state maintained by the unique index. -/
def distinctKeys (s : Store) : Prop :=
  s.Pairwise (fun a b => ¬(a.userId = b.userId ∧ a.dashboardId = b.dashboardId))

theorem updateFirst_keys (u d : String) (L : List JVal) (t : Nat)
    (s s' : Store) (h : updateFirst u d L t s = some s') :
    ∀ y ∈ s', ∃ z ∈ s, y.userId = z.userId ∧ y.dashboardId = z.dashboardId := by
  induction s generalizing s' with
  | nil => simp [updateFirst] at h
  | cons x xs ih =>
    by_cases hx : matchesKey u d x
    · simp only [updateFirst, hx, if_pos, Option.some.injEq] at h
      subst h
      intro y hy
      rcases List.mem_cons.mp hy with rfl | hy'
      · exact ⟨x, List.mem_cons_self x xs, rfl, rfl⟩
      · exact ⟨y, List.mem_cons_of_mem x hy', rfl, rfl⟩
    · simp only [updateFirst, hx] at h
      rcases Option.map_eq_some'.mp h with ⟨ys, hys, rfl⟩
      intro y hy
      rcases List.mem_cons.mp hy with rfl | hy'
      · exact ⟨y, List.mem_cons_self y xs, rfl, rfl⟩
      · rcases ih ys hys y hy' with ⟨z, hz, hzz⟩
        exact ⟨z, List.mem_cons_of_mem x hz, hzz⟩

theorem distinctKeys_updateFirst (u d : String) (L : List JVal) (t : Nat)
    (s s' : Store) (hs : distinctKeys s) (h : updateFirst u d L t s = some s') :
    distinctKeys s' := by
  induction s generalizing s' with
  | nil => simp [updateFirst] at h
  | cons x xs ih =>
    rcases List.pairwise_cons.mp hs with ⟨hx1, hxs⟩
    by_cases hx : matchesKey u d x
    · simp only [updateFirst, hx, if_pos, Option.some.injEq] at h
      subst h
      exact List.pairwise_cons.mpr ⟨fun y hy => hx1 y hy, hxs⟩
    · simp only [updateFirst, hx] at h
      rcases Option.map_eq_some'.mp h with ⟨ys, hys, rfl⟩
      refine List.pairwise_cons.mpr ⟨?_, ih ys hxs hys⟩
      intro y hy
      rcases updateFirst_keys u d L t xs ys hys y hy with ⟨z, hz, hz1, hz2⟩
      rw [hz1, hz2]
      exact hx1 z hz

theorem distinctKeys_append (s : Store) (u d : String) (l0 : Option (List JVal))
    (t0 : Option Nat) (hs : distinctKeys s) (hnone : find_one s u d = none) :
    distinctKeys (s ++ [⟨u, d, l0, t0⟩]) := by
  rw [find_one_eq_none_iff] at hnone
  refine List.pairwise_append.mpr ⟨hs, List.pairwise_singleton _ _, ?_⟩
  intro a ha b hb
  rcases List.mem_singleton.mp hb with rfl
  exact fun hk => hnone a ha ⟨hk.1, hk.2⟩

theorem distinctKeys_upsertCore (s : Store) (u d : String) (L : List JVal)
    (t : Nat) (hs : distinctKeys s) : distinctKeys (upsertCore s u d L t).1 := by
  unfold upsertCore
  rcases h : updateFirst u d L t s with _ | s'
  · exact distinctKeys_append s u d (some L) (some t) hs
      ((updateFirst_none_iff u d L t s).mp h)
  · simpa using distinctKeys_updateFirst u d L t s s' hs h

/-! ## Handler-level lemmas -/

theorem get_dashboard_present (s : Store) (h : Option String) (d : String)
    (now : Nat) (f : Option String) (doc : Doc)
    (hdoc : find_one s (get_current_user_id h) d = some doc) :
    get_dashboard s h d now f = (s, optJ (serialize_dashboard (some doc)), 200) := by
  simp only [get_dashboard]
  rw [if_neg (resolver_ne_empty h), hdoc]

theorem get_dashboard_absent_ok (s : Store) (h : Option String) (d : String)
    (now : Nat) (habs : find_one s (get_current_user_id h) d = none) :
    get_dashboard s h d now none =
      (s ++ [⟨get_current_user_id h, d, some [], some now⟩],
       optJ (serialize_dashboard (some ⟨get_current_user_id h, d, some [], some now⟩)),
       200) := by
  simp only [get_dashboard, insert_one]
  rw [if_neg (resolver_ne_empty h), habs,
    any_eq_false_of_find_one_none s _ d habs]
  simp

theorem get_dashboard_absent_fail (s : Store) (h : Option String) (d : String)
    (now : Nat) (cause : String)
    (habs : find_one s (get_current_user_id h) d = none) :
    get_dashboard s h d now (some cause) =
      (s, errBody ("Failed to create default dashboard: " ++ cause), 500) := by
  simp only [get_dashboard, insert_one]
  rw [if_neg (resolver_ne_empty h), habs]

theorem upsert_dashboard_ok (s : Store) (h : Option String) (d : String)
    (body : Option (List (String × JVal))) (L : List JVal) (now : Nat)
    (hL : (body.getD []).lookup "layout" = some (.jarr L)) :
    upsert_dashboard s h d body now none =
      ((upsertCore s (get_current_user_id h) d L now).1,
       .jobj
         [("status", .jstr
           (if (upsertCore s (get_current_user_id h) d L now).2
            then "created" else "updated")),
          ("dashboard", optJ (serialize_dashboard
            (find_one (upsertCore s (get_current_user_id h) d L now).1
              (get_current_user_id h) d)))],
       if (upsertCore s (get_current_user_id h) d L now).2 then 201 else 200) := by
  simp only [upsert_dashboard, update_one_upsert]
  rw [if_neg (resolver_ne_empty h), hL]

theorem upsert_dashboard_invalid (s : Store) (h : Option String) (d : String)
    (body : Option (List (String × JVal))) (now : Nat) (f : Option String)
    (hL : ∀ L, (body.getD []).lookup "layout" ≠ some (.jarr L)) :
    upsert_dashboard s h d body now f =
      (s, errBody "Field 'layout' (array) is required", 400) := by
  simp only [upsert_dashboard]
  rw [if_neg (resolver_ne_empty h)]

theorem upsert_dashboard_fail (s : Store) (h : Option String) (d : String)
    (body : Option (List (String × JVal))) (L : List JVal) (now : Nat)
    (cause : String)
    (hL : (body.getD []).lookup "layout" = some (.jarr L)) :
    upsert_dashboard s h d body now (some cause) =
      (s, errBody ("Failed to upsert dashboard: " ++ cause), 500) := by
  simp only [upsert_dashboard, update_one_upsert]
  rw [if_neg (resolver_ne_empty h), hL]

theorem resolver_verbatim (v : String) (hv : v ≠ "") :
    get_current_user_id (some v) = v := by
  simp [get_current_user_id, hv]

theorem get_dashboard_ne_401 (s : Store) (h : Option String) (d : String)
    (now : Nat) (f : Option String) : (get_dashboard s h d now f).2.2 ≠ 401 := by
  simp only [get_dashboard]
  rw [if_neg (resolver_ne_empty h)]
  rcases hf : find_one s (get_current_user_id h) d with _ | doc
  · rcases hins : insert_one f s ⟨get_current_user_id h, d, some [], some now⟩
      with e | s'
    · simp
    · simp
  · simp

theorem upsert_dashboard_ne_401 (s : Store) (h : Option String) (d : String)
    (body : Option (List (String × JVal))) (now : Nat) (f : Option String) :
    (upsert_dashboard s h d body now f).2.2 ≠ 401 := by
  simp only [upsert_dashboard]
  rw [if_neg (resolver_ne_empty h)]
  rcases hv : (body.getD []).lookup "layout" with _ | v
  · simp
  · cases v with
    | jarr L =>
      rcases hup : update_one_upsert f s (get_current_user_id h) d L now
        with e | p
      · simp [hup]
      · rcases p with ⟨s', created⟩
        cases created <;> simp [hup]
    | jnull => simp
    | jbool b => simp
    | jnum n => simp
    | jstr a => simp
    | jobj kvs => simp

theorem serialize_updatedAt_Z (doc : Doc) (str : String)
    (hf : (serialize_dashboard (some doc)).bind (field "updatedAt") =
      some (.jstr str)) : ∃ p, str = p ++ "Z" := by
  rcases doc with ⟨u, d, l, t⟩
  cases t with
  | none => simp [serialize_dashboard, field, List.lookup] at hf
  | some t0 =>
    simp [serialize_dashboard, field, List.lookup] at hf
    exact ⟨isoformat t0, hf.symm⟩

/-! ## Claims -/

/-- C1: for every GET dashboard request whose (identity, dashboardId) key
has no stored document, the handler inserts a default document (empty
layout, current timestamp) and responds 200 with the serialized new
document; if the insert fails, it responds 500 with
`{error: "Failed to create default dashboard: <cause>"}`, embedding the
underlying cause's text, and writes nothing. -/
theorem C1_get_or_create_default (s : Store) (h : Option String) (d : String)
    (now : Nat) (habs : find_one s (get_current_user_id h) d = none) :
    get_dashboard s h d now none =
      (s ++ [⟨get_current_user_id h, d, some [], some now⟩],
       optJ (serialize_dashboard
         (some ⟨get_current_user_id h, d, some [], some now⟩)),
       200) ∧
    ∀ cause, get_dashboard s h d now (some cause) =
      (s, errBody ("Failed to create default dashboard: " ++ cause), 500) :=
  ⟨get_dashboard_absent_ok s h d now habs,
   fun cause => get_dashboard_absent_fail s h d now cause habs⟩

/-- Witness for C1 at the empty store, no header, dashboard "abc". -/
theorem C1_witness :
    get_dashboard [] none "abc" 7 none =
      ([⟨"demo-user", "abc", some [], some 7⟩],
       optJ (serialize_dashboard (some ⟨"demo-user", "abc", some [], some 7⟩)),
       200) ∧
    get_dashboard [] none "abc" 7 (some "boom") =
      ([], errBody ("Failed to create default dashboard: " ++ "boom"), 500) :=
  ⟨(C1_get_or_create_default [] none "abc" 7 rfl).1,
   (C1_get_or_create_default [] none "abc" 7 rfl).2 "boom"⟩

/-- C4: a PUT whose parsed body has no `layout` key, or whose `layout`
value is not a list, gets exactly
`{error: "Field 'layout' (array) is required"}` with status 400 and the
store is left entirely unchanged. -/
theorem C4_missing_layout_400 (s : Store) (h : Option String) (d : String)
    (body : Option (List (String × JVal))) (now : Nat) (f : Option String)
    (hL : ∀ L, (body.getD []).lookup "layout" ≠ some (.jarr L)) :
    upsert_dashboard s h d body now f =
      (s, errBody "Field 'layout' (array) is required", 400) :=
  upsert_dashboard_invalid s h d body now f hL

/-- Witness for C4: a body whose `layout` is a string, not an array. -/
theorem C4_witness :
    upsert_dashboard [] none "d1" (some [("layout", JVal.jstr "x")]) 0 none =
      ([], errBody "Field 'layout' (array) is required", 400) :=
  C4_missing_layout_400 [] none "d1" (some [("layout", JVal.jstr "x")]) 0 none
    (fun L hcon => by simp [List.lookup] at hcon)

/-- C7 counterexample: the claim says the resolver returns the header value
verbatim whenever the header is present, but for a present empty-string
header the code returns the fallback "demo-user", not the verbatim "". -/
theorem C7_counterexample :
    get_current_user_id (some "") = "demo-user" ∧ "demo-user" ≠ "" :=
  ⟨by decide, by decide⟩

/-- C7 (amended): the resolver returns the header value verbatim when it is
present and non-empty, the fixed fallback "demo-user" when absent (or
empty), and never an empty identity; consequently the 401 branch of both
dashboard handlers is unreachable. -/
theorem C7_resolver_amended :
    (∀ v, v ≠ "" → get_current_user_id (some v) = v) ∧
    get_current_user_id none = "demo-user" ∧
    (∀ h, get_current_user_id h ≠ "") ∧
    (∀ s h d now f, (get_dashboard s h d now f).2.2 ≠ 401) ∧
    (∀ s h d body now f, (upsert_dashboard s h d body now f).2.2 ≠ 401) :=
  ⟨resolver_verbatim, rfl, resolver_ne_empty, get_dashboard_ne_401,
   upsert_dashboard_ne_401⟩

/-- Witness for C7 (amended) at the header "u1". -/
theorem C7_witness :
    get_current_user_id (some "u1") = "u1" ∧
    (get_dashboard [] (some "u1") "d1" 0 none).2.2 ≠ 401 :=
  ⟨C7_resolver_amended.1 "u1" (by decide),
   C7_resolver_amended.2.2.2.1 [] (some "u1") "d1" 0 none⟩

/-- C8: a PUT whose body is malformed JSON or parses to nothing is handled
exactly like a PUT with an empty-object body, and therefore takes the
missing-`layout` 400 path; no distinct malformed-JSON error exists. -/
theorem C8_malformed_body_as_empty (s : Store) (h : Option String)
    (d : String) (now : Nat) (f : Option String) :
    upsert_dashboard s h d none now f = upsert_dashboard s h d (some []) now f ∧
    upsert_dashboard s h d none now f =
      (s, errBody "Field 'layout' (array) is required", 400) :=
  ⟨rfl,
   upsert_dashboard_invalid s h d none now f
     (fun L hcon => by simp [List.lookup] at hcon)⟩

/-- C10: a present but empty `X-User-Id` header falls back to "demo-user"
(the presence check is a Python falsiness check), so the resolved identity
is never the empty string. -/
theorem C10_empty_header_fallback :
    get_current_user_id (some "") = "demo-user" ∧
    get_current_user_id (some "") = get_current_user_id none ∧
    ∀ h, get_current_user_id h ≠ "" :=
  ⟨by decide, by decide, resolver_ne_empty⟩

/-- C2: for every successful PUT, the response is 201 with
`{status: "created", dashboard: <doc>}` precisely when the upsert created
a new document, and 200 with `{status: "updated", dashboard: <doc>}`
otherwise; in both cases the returned dashboard is the re-read document
carrying the supplied layout and the server timestamp. -/
theorem C2_created_iff_new (s : Store) (h : Option String) (d : String)
    (body : Option (List (String × JVal))) (L : List JVal) (now : Nat)
    (hL : (body.getD []).lookup "layout" = some (.jarr L)) :
    (((upsert_dashboard s h d body now none).2.2 = 201 ∧
        field "status" (upsert_dashboard s h d body now none).2.1 =
          some (.jstr "created")) ↔
      find_one s (get_current_user_id h) d = none) ∧
    (((upsert_dashboard s h d body now none).2.2 = 200 ∧
        field "status" (upsert_dashboard s h d body now none).2.1 =
          some (.jstr "updated")) ↔
      ¬ find_one s (get_current_user_id h) d = none) ∧
    field "dashboard" (upsert_dashboard s h d body now none).2.1 =
      some (optJ (serialize_dashboard
        (some ⟨get_current_user_id h, d, some L, some now⟩))) := by
  have hcr := upsertCore_created_iff s (get_current_user_id h) d L now
  have hfind := upsertCore_find_self s (get_current_user_id h) d L now
  rw [upsert_dashboard_ok s h d body L now hL, hfind]
  cases hc : (upsertCore s (get_current_user_id h) d L now).2 with
  | false =>
    rw [hc] at hcr
    simp only [Bool.false_eq_true, false_iff] at hcr
    simp [field, List.lookup, hcr]
  | true =>
    rw [hc] at hcr
    simp only [true_iff] at hcr
    simp [field, List.lookup, hcr]

/-- Witness for C2: fresh key, empty store. -/
theorem C2_witness :
    ((upsert_dashboard [] none "d1" (some [("layout", JVal.jarr [])]) 0
        none).2.2 = 201 ∧
      field "status" (upsert_dashboard [] none "d1"
        (some [("layout", JVal.jarr [])]) 0 none).2.1 =
          some (.jstr "created")) ↔
      find_one [] (get_current_user_id none) "d1" = none :=
  (C2_created_iff_new [] none "d1" (some [("layout", JVal.jarr [])]) [] 0
    rfl).1

/-- C3: two successful PUTs with layouts L1 then L2 on the same key,
followed by a GET with no interleaved writes, return layout L2 and not
L1: the upsert fully replaces the stored layout. -/
theorem C3_second_put_layout_wins (s : Store) (h : Option String) (d : String)
    (b1 b2 : Option (List (String × JVal))) (L1 L2 : List JVal)
    (t1 t2 t3 : Nat)
    (_h1 : (b1.getD []).lookup "layout" = some (.jarr L1))
    (h2 : (b2.getD []).lookup "layout" = some (.jarr L2))
    (hne : L1 ≠ L2) :
    get_dashboard
        (upsert_dashboard (upsert_dashboard s h d b1 t1 none).1 h d b2 t2
          none).1 h d t3 none =
      ((upsert_dashboard (upsert_dashboard s h d b1 t1 none).1 h d b2 t2
          none).1,
       optJ (serialize_dashboard
         (some ⟨get_current_user_id h, d, some L2, some t2⟩)), 200) ∧
    field "layout"
        (get_dashboard
          (upsert_dashboard (upsert_dashboard s h d b1 t1 none).1 h d b2 t2
            none).1 h d t3 none).2.1 = some (.jarr L2) ∧
    field "layout"
        (get_dashboard
          (upsert_dashboard (upsert_dashboard s h d b1 t1 none).1 h d b2 t2
            none).1 h d t3 none).2.1 ≠ some (.jarr L1) := by
  have hfind : find_one
      (upsert_dashboard (upsert_dashboard s h d b1 t1 none).1 h d b2 t2
        none).1 (get_current_user_id h) d =
      some ⟨get_current_user_id h, d, some L2, some t2⟩ := by
    rw [upsert_dashboard_ok (upsert_dashboard s h d b1 t1 none).1 h d b2 L2
      t2 h2]
    exact upsertCore_find_self _ _ d L2 t2
  have hget := get_dashboard_present
    (upsert_dashboard (upsert_dashboard s h d b1 t1 none).1 h d b2 t2 none).1
    h d t3 none _ hfind
  refine ⟨hget, ?_, ?_⟩
  · rw [hget]
    simp [field, serialize_dashboard, optJ, List.lookup]
  · rw [hget]
    simp [field, serialize_dashboard, optJ, List.lookup]
    exact fun hcon => hne hcon.symm

/-- Witness for C3: two PUTs with distinct layouts then a GET, empty store. -/
theorem C3_witness :
    field "layout"
        (get_dashboard
          (upsert_dashboard
            (upsert_dashboard [] none "d1" (some [("layout", JVal.jarr [])])
              1 none).1
            none "d1" (some [("layout", JVal.jarr [JVal.jnull])]) 2 none).1
          none "d1" 3 none).2.1 = some (.jarr [JVal.jnull]) ∧
    field "layout"
        (get_dashboard
          (upsert_dashboard
            (upsert_dashboard [] none "d1" (some [("layout", JVal.jarr [])])
              1 none).1
            none "d1" (some [("layout", JVal.jarr [JVal.jnull])]) 2 none).1
          none "d1" 3 none).2.1 ≠ some (.jarr []) :=
  ⟨(C3_second_put_layout_wins [] none "d1"
      (some [("layout", JVal.jarr [])])
      (some [("layout", JVal.jarr [JVal.jnull])]) [] [JVal.jnull] 1 2 3 rfl
      rfl (by simp)).2.1,
   (C3_second_put_layout_wins [] none "d1"
      (some [("layout", JVal.jarr [])])
      (some [("layout", JVal.jarr [JVal.jnull])]) [] [JVal.jnull] 1 2 3 rfl
      rfl (by simp)).2.2⟩

/-- C5: in every reachable store state at most one document exists per
(userId, dashboardId) pair: the unique-index invariant `distinctKeys` is
preserved by the GET handler's default insert and by the PUT handler's
upsert, for any request and any injected store outcome. -/
theorem C5_unique_key_invariant (s : Store) (h : Option String) (d : String)
    (body : Option (List (String × JVal))) (now : Nat) (f : Option String)
    (hs : distinctKeys s) :
    distinctKeys (get_dashboard s h d now f).1 ∧
    distinctKeys (upsert_dashboard s h d body now f).1 := by
  constructor
  · rcases hf : find_one s (get_current_user_id h) d with _ | doc
    · rcases f with _ | cause
      · rw [get_dashboard_absent_ok s h d now hf]
        exact distinctKeys_append s _ d (some []) (some now) hs hf
      · rw [get_dashboard_absent_fail s h d now cause hf]
        exact hs
    · rw [get_dashboard_present s h d now f doc hf]
      exact hs
  · rcases hv : (body.getD []).lookup "layout" with _ | v
    · rw [upsert_dashboard_invalid s h d body now f
        (fun L hcon => by rw [hv] at hcon; cases hcon)]
      exact hs
    · cases v with
      | jarr L =>
        rcases f with _ | cause
        · rw [upsert_dashboard_ok s h d body L now hv]
          exact distinctKeys_upsertCore s _ d L now hs
        · rw [upsert_dashboard_fail s h d body L now cause hv]
          exact hs
      | jnull =>
        rw [upsert_dashboard_invalid s h d body now f
          (fun L hcon => by rw [hv] at hcon; cases Option.some.inj hcon)]
        exact hs
      | jbool b0 =>
        rw [upsert_dashboard_invalid s h d body now f
          (fun L hcon => by rw [hv] at hcon; cases Option.some.inj hcon)]
        exact hs
      | jnum n0 =>
        rw [upsert_dashboard_invalid s h d body now f
          (fun L hcon => by rw [hv] at hcon; cases Option.some.inj hcon)]
        exact hs
      | jstr a0 =>
        rw [upsert_dashboard_invalid s h d body now f
          (fun L hcon => by rw [hv] at hcon; cases Option.some.inj hcon)]
        exact hs
      | jobj kvs0 =>
        rw [upsert_dashboard_invalid s h d body now f
          (fun L hcon => by rw [hv] at hcon; cases Option.some.inj hcon)]
        exact hs

/-- Witness for C5 at the empty store. -/
theorem C5_witness :
    distinctKeys (get_dashboard [] none "d1" 0 none).1 ∧
    distinctKeys
      (upsert_dashboard [] none "d1" (some [("layout", JVal.jarr [])]) 0
        none).1 :=
  C5_unique_key_invariant [] none "d1" (some [("layout", JVal.jarr [])]) 0
    none List.Pairwise.nil

/-- C6: a PUT by identity A is invisible to a later GET by a distinct
identity B on the same dashboardId: B's view of its own key is unchanged
by A's write, and B's GET creates and returns its own independent
empty-layout document. -/
theorem C6_identity_isolation (s : Store) (a b d : String)
    (body : Option (List (String × JVal))) (L : List JVal) (t1 t2 : Nat)
    (hab : a ≠ b) (ha : a ≠ "") (hb : b ≠ "")
    (hL : (body.getD []).lookup "layout" = some (.jarr L))
    (hB : find_one s b d = none) :
    find_one (upsert_dashboard s (some a) d body t1 none).1 b d = none ∧
    get_dashboard (upsert_dashboard s (some a) d body t1 none).1 (some b) d
        t2 none =
      ((upsert_dashboard s (some a) d body t1 none).1 ++
        [⟨b, d, some [], some t2⟩],
       optJ (serialize_dashboard (some ⟨b, d, some [], some t2⟩)), 200) := by
  have hra := resolver_verbatim a ha
  have hrb := resolver_verbatim b hb
  have hs1 : (upsert_dashboard s (some a) d body t1 none).1 =
      (upsertCore s a d L t1).1 := by
    rw [upsert_dashboard_ok s (some a) d body L t1 hL, hra]
  have hnone : find_one (upsert_dashboard s (some a) d body t1 none).1 b d =
      none := by
    rw [hs1, upsertCore_find_other s a d b d L t1
      (fun hcon => hab hcon.1.symm)]
    exact hB
  refine ⟨hnone, ?_⟩
  have hres := get_dashboard_absent_ok
    (upsert_dashboard s (some a) d body t1 none).1 (some b) d t2
    (by rw [hrb]; exact hnone)
  rw [hrb] at hres
  exact hres

/-- Witness for C6: identities "alice" and "bob" on dashboard "d1". -/
theorem C6_witness :
    find_one (upsert_dashboard [] (some "alice") "d1"
        (some [("layout", JVal.jarr [JVal.jbool true])]) 1 none).1 "bob" "d1"
      = none ∧
    get_dashboard (upsert_dashboard [] (some "alice") "d1"
        (some [("layout", JVal.jarr [JVal.jbool true])]) 1 none).1
        (some "bob") "d1" 2 none =
      ((upsert_dashboard [] (some "alice") "d1"
          (some [("layout", JVal.jarr [JVal.jbool true])]) 1 none).1 ++
        [⟨"bob", "d1", some [], some 2⟩],
       optJ (serialize_dashboard (some ⟨"bob", "d1", some [], some 2⟩)),
       200) :=
  C6_identity_isolation [] "alice" "bob" "d1"
    (some [("layout", JVal.jarr [JVal.jbool true])]) [JVal.jbool true] 1 2
    (by decide) (by decide) (by decide) rfl rfl

/-- C9: every successful PUT stores `updatedAt := now`, the server's
current time — for every request body, so never a caller-supplied value;
whenever the server clock has not gone backwards since the previous write
(t0 ≤ now), the new value is ≥ the previous `updatedAt` of that key; and
every serialized non-null `updatedAt` string ends in the UTC designator
"Z". -/
theorem C9_put_sets_server_updatedAt (s : Store) (h : Option String)
    (d : String) (body : Option (List (String × JVal))) (L : List JVal)
    (now : Nat)
    (hL : (body.getD []).lookup "layout" = some (.jarr L)) :
    find_one (upsert_dashboard s h d body now none).1
        (get_current_user_id h) d =
      some ⟨get_current_user_id h, d, some L, some now⟩ ∧
    (∀ x t0, find_one s (get_current_user_id h) d = some x →
      x.updatedAt = some t0 → t0 ≤ now →
      ∀ y, find_one (upsert_dashboard s h d body now none).1
          (get_current_user_id h) d = some y →
        ∃ t1, y.updatedAt = some t1 ∧ t0 ≤ t1) ∧
    (∀ doc str, (serialize_dashboard (some doc)).bind (field "updatedAt") =
      some (.jstr str) → ∃ p, str = p ++ "Z") := by
  have hfound : find_one (upsert_dashboard s h d body now none).1
      (get_current_user_id h) d =
      some ⟨get_current_user_id h, d, some L, some now⟩ := by
    rw [upsert_dashboard_ok s h d body L now hL]
    exact upsertCore_find_self s _ d L now
  refine ⟨hfound, ?_, fun doc str hf => serialize_updatedAt_Z doc str hf⟩
  intro x t0 _ _ ht y hy
  rw [hfound] at hy
  obtain rfl := Option.some.inj hy
  exact ⟨now, rfl, ht⟩

/-- Witness for C9: a key that already carries timestamp 3, written at
time 5. -/
theorem C9_witness :
    find_one (upsert_dashboard [⟨"demo-user", "d1", some [], some 3⟩] none
        "d1" (some [("layout", JVal.jarr [])]) 5 none).1 "demo-user" "d1" =
      some ⟨"demo-user", "d1", some [], some 5⟩ ∧
    ∃ t1, (⟨"demo-user", "d1", some [], some 5⟩ : Doc).updatedAt = some t1 ∧
      3 ≤ t1 := by
  have hmain := C9_put_sets_server_updatedAt
    [⟨"demo-user", "d1", some [], some 3⟩] none "d1"
    (some [("layout", JVal.jarr [])]) [] 5 rfl
  refine ⟨hmain.1, ?_⟩
  exact hmain.2.1 ⟨"demo-user", "d1", some [], some 3⟩ 3 rfl rfl (by decide)
    ⟨"demo-user", "d1", some [], some 5⟩ hmain.1
